import Mathlib

/-!
Shallow embedding of the intent-aware e-commerce RAG pipeline
(`src/rag_system.py` of the Ecommerce-RAG repository, together with the
static configuration tables of `src/config.py`), and proofs about it.

Modelling conventions:
* Text is `List Char` (`Str`); Python `str.lower()` is char-wise `Char.toLower`.
* Python numbers (int/float) are `ℚ`; `isinstance(x, (int, float))` on an
  optional metadata field becomes pattern-matching on `Option ℚ`.
* Python dicts holding retrieval hits / profiles are structures whose fields
  are `Option`-typed where the source uses `.get` with a default.
* The external services (embedding + vector store, generative text service,
  JSON decoding of model output) are parameters of the functions that call
  them: `probe` is the composition embed-then-query of one retrieval probe,
  `llm` maps a prompt to the observed outcome of the chat-completions call,
  and `jsonLoads` stands for `json.loads` (returning `none` on a decode
  error).
* File-based state (the metrics log) is threaded explicitly; wall-clock
  readings are parameters.
-/

namespace EcommerceRAG

set_option maxRecDepth 100000

/-- Text is modelled as a list of characters. -/
abbrev Str := List Char

/-- Char-wise lower-casing, modelling Python `str.lower()` on ASCII text. -/
def lowerStr (s : Str) : Str := s.map Char.toLower

/-- Python substring containment `needle in hay`. -/
def isSubstr (needle : Str) : Str → Bool
  | [] => needle.isEmpty
  | c :: t => needle.isPrefixOf (c :: t) || isSubstr needle t

/-- The character `{` (written via its code point to keep string literals plain). -/
def lbrace : Char := Char.ofNat 123

/-- The character `}`. -/
def rbrace : Char := Char.ofNat 125

/-! ## Static configuration (`src/config.py`) -/

/-- Weight `WEIGHT_PINECONE = 1.0`. -/
def WEIGHT_PINECONE : ℚ := 1

/-- Weight `WEIGHT_SENTIMENT = 0.15`. -/
def WEIGHT_SENTIMENT : ℚ := 15 / 100

/-- Weight `WEIGHT_PREF_CATEGORY = 0.25`. -/
def WEIGHT_PREF_CATEGORY : ℚ := 25 / 100

/-- Weight `WEIGHT_PREF_BRAND = 0.20`. -/
def WEIGHT_PREF_BRAND : ℚ := 20 / 100

/-- Weight `WEIGHT_PREF_PRICE = 0.15`. -/
def WEIGHT_PREF_PRICE : ℚ := 15 / 100

/-- The `RELATED_CATEGORIES` adjacency table of `src/config.py`. -/
def RELATED_CATEGORIES : List (Str × List Str) :=
  [ (("Smartphones".data), [("Smartwatches".data), ("Headphones".data), ("Tablets".data), ("Smart Home".data)])
  , (("Laptops".data), [("Monitors".data), ("Headphones".data), ("Keyboards".data), ("Gaming".data)])
  , (("Headphones".data), [("Smartphones".data), ("Laptops".data), ("Gaming".data), ("Tablets".data)])
  , (("Smartwatches".data), [("Smartphones".data), ("Headphones".data)])
  , (("Gaming".data), [("Headphones".data), ("Monitors".data), ("Laptops".data)])
  , (("Tablets".data), [("Keyboards".data), ("Headphones".data), ("Smart Home".data)])
  , (("Smart Home".data), [("Smartphones".data), ("Tablets".data)])
  , (("Cameras".data), [("Headphones".data), ("Storage".data), ("Laptops".data)]) ]

/-- Python `dict.get(key, [])` on the adjacency table. -/
def lookupRelated (k : Str) : List Str :=
  match RELATED_CATEGORIES.find? (fun kv => kv.1 == k) with
  | some kv => kv.2
  | none => []

/-! ## Data model -/

/-- Metadata of one retrieval hit (a chunk), with optional fields where the
source reads them through `.get` with a default. -/
structure Metadata where
  product_id : Option Str := none
  name : Option Str := none
  category : Option Str := none
  brand : Option Str := none
  price : Option ℚ := none
  rating : Option ℚ := none
  avg_sentiment : Option ℚ := none
  text : Option Str := none
  specifications : List (Str × Str) := []
deriving DecidableEq

/-- One retrieval hit as returned by the vector store. -/
structure Candidate where
  id : Option Str := none
  score : Option ℚ := none
  type : Option Str := none
  metadata : Metadata := {}
deriving DecidableEq

/-- One interaction record appended by `update_preferences`. -/
structure Interaction where
  product_id : Option Str := none
  action : Str := []
  timestamp : Nat := 0
  category : Option Str := none
  brand : Option Str := none
  price : Option ℚ := none
deriving DecidableEq

/-- A user profile as produced by `get_user_profile` / `update_preferences`. -/
structure Profile where
  preferred_categories : List Str := []
  preferred_brands : List Str := []
  max_price : Option ℚ := none
  min_rating : Option ℚ := none
  interaction_history : List Interaction := []
deriving DecidableEq

/-- The default profile returned by `get_user_profile` for an unknown user. -/
def defaultProfile : Profile := {}

/-- The intent dictionary built by `_detect_query_intent`. -/
structure Intent where
  type : Str := ("general".data)
  categories : List Str := []
  comparison_requested : Bool := false
  budget_mentioned : Bool := false
  price_range : Option Nat := none
  specific_features : List Str := []
deriving DecidableEq

/-! ## Intent extractor (`_detect_query_intent`) -/

/-- The comparison keyword list of `_detect_query_intent`. -/
def comparison_words : List Str :=
  [("compare".data), ("vs".data), ("versus".data), ("difference".data), ("better".data), ("best".data)]

/-- The `category_keywords` table set up in `ECommerceRAG.__init__`. -/
def category_keywords : List (Str × List Str) :=
  [ (("smartphones".data), [("phone".data), ("mobile".data), ("android".data), ("iphone".data), ("cellular".data)])
  , (("laptops".data), [("laptop".data), ("notebook".data), ("computer".data), ("gaming pc".data), ("workstation".data)])
  , (("headphones".data), [("headphones".data), ("earbuds".data), ("audio".data), ("wireless".data), ("noise cancel".data)])
  , (("smartwatches".data), [("watch".data), ("wearable".data), ("fitness tracker".data)])
  , (("gaming".data), [("gaming".data), ("console".data), ("playstation".data), ("xbox".data), ("nintendo".data)])
  , (("cameras".data), [("camera".data), ("photography".data), ("dslr".data), ("mirrorless".data), ("lens".data)]) ]

/-- The feature keyword list of `_detect_query_intent`. -/
def feature_keywords : List Str :=
  [ ("noise cancel".data), ("wireless".data), ("gaming".data), ("professional".data), ("camera".data)
  , ("battery".data), ("fast charging".data), ("waterproof".data), ("lightweight".data) ]

/-- Numeric value of a (non-empty) digit run, as `int(...)` of the regex group. -/
def digitsToNat (ds : List Char) : Nat :=
  ds.foldl (fun acc c => acc * 10 + (c.toNat - 48)) 0

/-- Matching one of the regexes `lit\$?(\d+)` at the start of `s`
(`lit` is the literal prefix such as `"under "`); returns the captured
number. The optional `$` needs no backtracking because no digit can follow
an unconsumed `$`. -/
def matchLitThenNum (lit : Str) (s : Str) : Option Nat :=
  if lit.isPrefixOf s then
    let rest := s.drop lit.length
    let rest := match rest with
      | '$' :: t => t
      | r => r
    let ds := rest.takeWhile Char.isDigit
    if ds.isEmpty then none else some (digitsToNat ds)
  else none

/-- The `re.search` of one `lit\$?(\d+)` pattern: leftmost match wins. -/
def searchLitNum (lit : Str) : Str → Option Nat
  | [] => matchLitThenNum lit []
  | c :: t =>
    match matchLitThenNum lit (c :: t) with
    | some n => some n
    | none => searchLitNum lit t

/-- Matching the regex `\$(\d+) budget` at the start of `s`. -/
def matchDollarNumBudget (s : Str) : Option Nat :=
  match s with
  | '$' :: t =>
    let ds := t.takeWhile Char.isDigit
    let rest := t.dropWhile Char.isDigit
    if ds.isEmpty then none
    else if (" budget".data).isPrefixOf rest then some (digitsToNat ds) else none
  | _ => none

/-- The `re.search` of the `\$(\d+) budget` pattern. -/
def searchDollarBudget : Str → Option Nat
  | [] => none
  | c :: t =>
    match matchDollarNumBudget (c :: t) with
    | some n => some n
    | none => searchDollarBudget t

/-- The ordered `price_patterns` scan of `_detect_query_intent`: the first
pattern that matches sets the budget, later patterns are not tried. -/
def firstPriceMatch (q : Str) : Option Nat :=
  match searchLitNum ("under ".data) q with
  | some n => some n
  | none =>
    match searchLitNum ("below ".data) q with
    | some n => some n
    | none =>
      match searchLitNum ("less than ".data) q with
      | some n => some n
      | none =>
        match searchLitNum ("budget of ".data) q with
        | some n => some n
        | none => searchDollarBudget q

/-- The intent extractor `_detect_query_intent` of `src/rag_system.py`. -/
def _detect_query_intent (query : Str) : Intent :=
  let query_lower := lowerStr query
  let comparison := comparison_words.any (fun w => isSubstr w query_lower)
  let cats := (category_keywords.filter
    (fun ck => ck.2.any (fun k => isSubstr k query_lower))).map (fun ck => ck.1)
  let pm := firstPriceMatch query_lower
  let features := feature_keywords.filter (fun f => isSubstr f query_lower)
  { type := if comparison then ("comparison".data) else ("general".data)
  , categories := cats
  , comparison_requested := comparison
  , budget_mentioned := pm.isSome
  , price_range := pm
  , specific_features := features }

/-! ## Retrieval orchestrator (`retrieve_with_intent`)

The composition of `embed_query` and `_query_index` (one fan-out probe
against the external vector store) is the parameter
`probe : Str → Nat → List Candidate` (query text and `top_k`). -/

/-- Stages 1–2 of `retrieve_with_intent`: the primary probe followed by one
probe per extracted intent category (in extraction order, results appended
in that order). The Python guard `if intent["categories"]:` is redundant
with the fold over the category list and is omitted. -/
def stage12Results (probe : Str → Nat → List Candidate) (query : Str)
    (intent : Intent) (top_k : Nat) : List Candidate :=
  let primary_results := probe query top_k
  intent.categories.foldl
    (fun acc category =>
      acc ++ probe (query ++ (". Category: ".data) ++ category) (max 5 (top_k / 3)))
    primary_results

/-- The per-hit test of the budget filter: the metadata price is a number
(`isinstance(price, (int, float))`) and at most the price range. -/
def priceOkFilter (pr : Nat) (result : Candidate) : Bool :=
  match result.metadata.price with
  | some price => price ≤ (pr : ℚ)
  | none => false

/-- The budget filter block of `retrieve_with_intent`: when
`intent["budget_mentioned"] and intent["price_range"]` (Python truthiness:
`price_range` must be set and nonzero), keep only hits with numeric
metadata price `≤ price_range`, but fall back to the unfiltered list when
nothing survives. -/
def applyPriceFilter (intent : Intent) (primary_results : List Candidate) : List Candidate :=
  match intent.budget_mentioned, intent.price_range with
  | true, some pr =>
    if pr ≠ 0 then
      let price_filtered := primary_results.filter (priceOkFilter pr)
      if price_filtered ≠ [] then price_filtered else primary_results
    else primary_results
  | _, _ => primary_results

/-- The set of truthy categories present in the accumulator, as an
insertion-ordered deduplicated list (modelling the Python `set`). -/
def categoriesFound (results : List Candidate) : List Str :=
  results.foldl
    (fun acc result =>
      match result.metadata.category with
      | some cat => if cat ≠ [] ∧ cat ∉ acc then acc ++ [cat] else acc
      | none => acc)
    []

/-- Stage 4 of `retrieve_with_intent`: for each distinct category present in
the accumulator, probe for up to two related categories from
`RELATED_CATEGORIES`. -/
def relatedResults (probe : Str → Nat → List Candidate) (query : Str)
    (top_k : Nat) (primary_results : List Candidate) : List Candidate :=
  (categoriesFound primary_results).foldl
    (fun acc category =>
      ((lookupRelated category).take 2).foldl
        (fun acc2 related_cat =>
          acc2 ++ probe (query ++ (". Related category: ".data) ++ related_cat) (max 3 (top_k / 5)))
        acc)
    []

/-- The concatenation `expanded_results` handed to the deduplication loop:
the (possibly price-filtered) stage 1–2 accumulator followed by the stage-4
related-category results. -/
def expandedResults (probe : Str → Nat → List Candidate) (query : Str)
    (intent : Intent) (top_k : Nat) : List Candidate :=
  let primary_results := applyPriceFilter intent (stage12Results probe query intent top_k)
  primary_results ++ relatedResults probe query top_k primary_results

/-- Python `result.get("id", "")`. -/
def idOf (result : Candidate) : Str := result.id.getD []

/-- The deduplication loop at the end of `retrieve_with_intent`: walk
`expanded_results`, keep the first hit for each id, and break once
`top_k * 2` hits have been kept (the break fires after appending). `seen`
holds the ids already kept and `len` the number of hits kept so far. -/
def uniqLoop (cap : Nat) : List Candidate → List Str → Nat → List Candidate
  | [], _, _ => []
  | result :: rest, seen, len =>
    if idOf result ∈ seen then uniqLoop cap rest seen len
    else if cap ≤ len + 1 then [result]
    else result :: uniqLoop cap rest (idOf result :: seen) (len + 1)

/-- The retrieval orchestrator `retrieve_with_intent` of `src/rag_system.py`
(the `user_profile` parameter is unused by the source body). -/
def retrieve_with_intent (probe : Str → Nat → List Candidate) (query : Str)
    (_user_profile : Profile) (intent : Intent) (top_k : Nat) : List Candidate :=
  uniqLoop (top_k * 2) (expandedResults probe query intent top_k) [] 0

/-! ## Preference-aware reranker (`_enhanced_preference_score`, `rerank_with_diversity`) -/

/-- The preference scorer `_enhanced_preference_score` of `src/rag_system.py`.
Python truthiness of `max_price` / `min_rating` (a number is falsy exactly
when it is zero) is modelled by the explicit `≠ 0` guards; `None == None`
equality of two absent fields in the interaction-affinity comparison is
preserved by comparing the `Option` values directly. -/
def _enhanced_preference_score (metadata : Metadata) (profile : Profile) : ℚ :=
  let score : ℚ := 0
  let score := match metadata.category with
    | some c => if c ∈ profile.preferred_categories then score + WEIGHT_PREF_CATEGORY else score
    | none => score
  let score := match metadata.brand with
    | some b => if b ∈ profile.preferred_brands then score + WEIGHT_PREF_BRAND else score
    | none => score
  let score := match profile.max_price, metadata.price with
    | some max_price, some price =>
      if max_price ≠ 0 then
        if price ≤ max_price then score + WEIGHT_PREF_PRICE
        else
          let overage := (price - max_price) / max_price
          score - min WEIGHT_PREF_PRICE (overage * WEIGHT_PREF_PRICE)
      else score
    | _, _ => score
  let score := match profile.min_rating, metadata.rating with
    | some min_rating, some rating =>
      if min_rating ≠ 0 then
        (if min_rating ≤ rating then score + 1 / 10 else score)
      else score
    | _, _ => score
  let recent_interactions :=
    profile.interaction_history.drop (profile.interaction_history.length - 20)
  let positive_similar :=
    (recent_interactions.filter (fun interaction =>
      interaction.action == ("like".data) &&
        (interaction.category == metadata.category || interaction.brand == metadata.brand))).length
  let score := if 0 < positive_similar
    then score + min (15 / 100 : ℚ) ((positive_similar : ℚ) * (5 / 100))
    else score
  score

/-- Comparison definition for the safety claim about the price term: the
preference score with the `max_price`/price block removed entirely (all
other terms identical to `_enhanced_preference_score`). -/
def preferenceScoreNoPriceTerm (metadata : Metadata) (profile : Profile) : ℚ :=
  let score : ℚ := 0
  let score := match metadata.category with
    | some c => if c ∈ profile.preferred_categories then score + WEIGHT_PREF_CATEGORY else score
    | none => score
  let score := match metadata.brand with
    | some b => if b ∈ profile.preferred_brands then score + WEIGHT_PREF_BRAND else score
    | none => score
  let score := match profile.min_rating, metadata.rating with
    | some min_rating, some rating =>
      if min_rating ≠ 0 then
        (if min_rating ≤ rating then score + 1 / 10 else score)
      else score
    | _, _ => score
  let recent_interactions :=
    profile.interaction_history.drop (profile.interaction_history.length - 20)
  let positive_similar :=
    (recent_interactions.filter (fun interaction =>
      interaction.action == ("like".data) &&
        (interaction.category == metadata.category || interaction.brand == metadata.brand))).length
  let score := if 0 < positive_similar
    then score + min (15 / 100 : ℚ) ((positive_similar : ℚ) * (5 / 100))
    else score
  score

/-- The per-candidate final score computed in the first loop of
`rerank_with_diversity`: weighted similarity, weighted sentiment, preference
score and the intent bonus. -/
def finalScore (match_ : Candidate) (profile : Profile) (intent : Intent) : ℚ :=
  let base_score := match_.score.getD 0 * WEIGHT_PINECONE
  let metadata := match_.metadata
  let sentiment_score := metadata.avg_sentiment.getD 0 * WEIGHT_SENTIMENT
  let preference_score := _enhanced_preference_score metadata profile
  let intent_bonus : ℚ :=
    if intent.comparison_requested then
      let product_category := lowerStr (metadata.category.getD [])
      if intent.categories.any (fun cat => isSubstr cat product_category) then 1 / 10 else 0
    else 0
  let intent_bonus :=
    if intent.specific_features ≠ [] then
      let product_text := lowerStr (metadata.text.getD [])
      let feature_matches :=
        (intent.specific_features.filter (fun feature => isSubstr feature product_text)).length
      intent_bonus + (feature_matches : ℚ) * (5 / 100)
    else intent_bonus
  base_score + sentiment_score + preference_score + intent_bonus

/-- Insertion step of a stable descending sort on the score component. -/
def insertDesc (x : ℚ × Candidate) : List (ℚ × Candidate) → List (ℚ × Candidate)
  | [] => [x]
  | y :: rest => if y.1 < x.1 then x :: y :: rest else y :: insertDesc x rest

/-- Stable descending sort by score, modelling
`scored_results.sort(key=lambda x: x[0], reverse=True)` (the Python sort is
stable and `reverse=True` keeps equal-key elements in input order). -/
def sortByScoreDesc (l : List (ℚ × Candidate)) : List (ℚ × Candidate) :=
  l.foldl (fun acc x => insertDesc x acc) []

/-- The greedy diversity pass of `rerank_with_diversity`: a single forward
scan admitting a candidate only while its brand has been admitted fewer than
2 times and its (exact) category fewer than `max_same_category` times, where
the 4-vs-2 cap is chosen by case-insensitive membership of the category in
`intent.categories`; the scan stops once 15 candidates are admitted. Brand
and category counts compare the raw optional field against the
defaulted-to-`""` value of the current candidate, as the source does (the
write-only `seen_brands` / `seen_categories` sets of the source are dead
code and not modelled). -/
def diversityLoop (intent : Intent) :
    List (ℚ × Candidate) → List Candidate → List Candidate
  | [], final_results => final_results
  | (_, result) :: rest, final_results =>
    let metadata := result.metadata
    let brand := metadata.brand.getD []
    let category := metadata.category.getD []
    let brand_count :=
      (final_results.filter (fun r => r.metadata.brand == some brand)).length
    let category_count :=
      (final_results.filter (fun r => r.metadata.category == some category)).length
    let max_same_category := if lowerStr category ∈ intent.categories then 4 else 2
    if brand_count < 2 ∧ category_count < max_same_category then
      let final_results := final_results ++ [result]
      if 15 ≤ final_results.length then final_results
      else diversityLoop intent rest final_results
    else diversityLoop intent rest final_results

/-- The reranker `rerank_with_diversity` of `src/rag_system.py`. -/
def rerank_with_diversity (matches' : List Candidate) (profile : Profile)
    (intent : Intent) : List Candidate :=
  let scored_results := matches'.map (fun m => (finalScore m profile intent, m))
  let scored_results := sortByScoreDesc scored_results
  diversityLoop intent scored_results []

/-! ## JSON values

Values produced by `json.loads` on the generative-service text, and the
dictionaries the composer returns. -/

/-- A JSON value (the dynamic values flowing through the composer). -/
inductive Json where
  | null
  | bool (b : Bool)
  | num (q : ℚ)
  | str (s : Str)
  | arr (elems : List Json)
  | obj (fields : List (Str × Json))

/-- Python `dict.get(key)`: `none` when the key is absent. -/
def getField : List (Str × Json) → Str → Option Json
  | [], _ => none
  | (k, v) :: t, key => if k = key then some v else getField t key

/-- Python `dict[key] = value`: replace the (first) binding or append. -/
def setField : List (Str × Json) → Str → Json → List (Str × Json)
  | [], key, v => [(key, v)]
  | (k, v') :: t, key, v => if k = key then (key, v) :: t else (k, v') :: setField t key v

/-- Python `dict.get(key)` on a `Json` object (`none` on non-objects too). -/
def Json.lookup : Json → Str → Option Json
  | .obj fields, key => getField fields key
  | _, _ => none

/-- Python truthiness of a JSON value (`if not parsed_response.get("summary")`). -/
def Json.falsy : Json → Bool
  | .null => true
  | .bool b => !b
  | .num q => q == 0
  | .str s => s.isEmpty
  | .arr l => l.isEmpty
  | .obj l => l.isEmpty

/-- Whether `isinstance(v, list)` holds for the value of a `dict.get`. -/
def isListField (v : Option Json) : Bool :=
  match v with
  | some (.arr _) => true
  | _ => false

/-- Length of the `comparisons` array of a composer result, when it is one. -/
def comparisonsLength (j : Json) : Option Nat :=
  match j.lookup ("comparisons".data) with
  | some (.arr l) => some l.length
  | _ => none

/-! ## Prompt building (`_build_enhanced_prompt`) -/

/-- Decimal rendering of a number for prompt text (integers render as their
digit string; non-integral rationals as `num/den`). This stands in for
the Python numeric-to-string formatting, which the pipeline only uses to
interpolate numbers into prompt text. -/
def ratToStr (q : ℚ) : Str :=
  let sign : Str := if q < 0 then ['-'] else []
  if q.den = 1 then sign ++ Nat.toDigits 10 q.num.natAbs
  else sign ++ Nat.toDigits 10 q.num.natAbs ++ ['/'] ++ Nat.toDigits 10 q.den

/-- Python `metadata.get("price", "N/A")` interpolated into prompt text. -/
def dispOpt (v : Option ℚ) : Str :=
  match v with
  | some q => ratToStr q
  | none => ("N/A".data)

/-- The per-product record aggregated by `_build_enhanced_prompt` from the
first 10 ranked chunks (the `features` list of the source is never
written and is omitted). -/
structure PromptProduct where
  name : Str
  category : Str
  brand : Str
  price : Option ℚ
  rating : Option ℚ
  reviews_summary : Str
  specifications : List (Str × Str)

/-- The fresh record created on first sight of a product id. -/
def initPromptProduct (metadata : Metadata) : PromptProduct :=
  { name := metadata.name.getD ("Unknown".data)
  , category := metadata.category.getD ("Unknown".data)
  , brand := metadata.brand.getD ("Unknown".data)
  , price := metadata.price
  , rating := metadata.rating
  , reviews_summary := []
  , specifications := [] }

/-- Python `dict.update`: existing keys keep their place, new keys append. -/
def dictUpdate (d new : List (Str × Str)) : List (Str × Str) :=
  new.foldl (fun acc kv =>
    if acc.any (fun kv' => kv'.1 == kv.1)
    then acc.map (fun kv' => if kv'.1 == kv.1 then kv else kv')
    else acc ++ [kv]) d

/-- Update the record of one product id in the aggregation (assoc-list map). -/
def updateProd (products : List (Str × PromptProduct)) (pid : Str)
    (f : PromptProduct → PromptProduct) : List (Str × PromptProduct) :=
  products.map (fun kv => if kv.1 = pid then (kv.1, f kv.2) else kv)

/-- The `products_info` aggregation loop of `_build_enhanced_prompt`: walk the
first 10 chunks, create a record per truthy product id, merge specification
key/values from specifications-type chunks and keep a truncated excerpt from
reviews-type chunks. -/
def promptProducts (chunks : List Candidate) : List (Str × PromptProduct) :=
  (chunks.take 10).foldl
    (fun products chunk =>
      let metadata := chunk.metadata
      match metadata.product_id with
      | none => products
      | some product_id =>
        if product_id = [] then products
        else
          let products :=
            if products.all (fun kv => kv.1 ≠ product_id)
            then products ++ [(product_id, initPromptProduct metadata)]
            else products
          let chunk_text := metadata.text.getD []
          let ty := lowerStr (chunk.type.getD [])
          if isSubstr ("specifications".data) ty then
            if metadata.specifications ≠ [] then
              updateProd products product_id (fun r =>
                { r with specifications := dictUpdate r.specifications metadata.specifications })
            else products
          else if isSubstr ("reviews".data) ty then
            updateProd products product_id (fun r =>
              { r with reviews_summary := chunk_text.take 200 })
          else products)
    []

/-- One numbered context block of `_build_enhanced_prompt`. -/
def contextPart (i : Nat) (info : PromptProduct) : Str :=
  Nat.toDigits 10 i ++ (". **".data) ++ info.name ++ ("** (".data) ++ info.brand ++ (")\n".data) ++
  ("   - Category: ".data) ++ info.category ++ ['\n'] ++
  ("   - Price: $".data) ++ dispOpt info.price ++ ['\n'] ++
  ("   - Rating: ".data) ++ dispOpt info.rating ++ ("/5\n".data) ++
  (if info.specifications ≠ [] then
    ("   - Key Specs: ".data) ++
      List.intercalate (", ".data)
        ((info.specifications.take 3).map (fun kv => kv.1 ++ (": ".data) ++ kv.2)) ++ ['\n']
  else []) ++
  (if info.reviews_summary ≠ [] then
    ("   - Customer Feedback: ".data) ++ info.reviews_summary.take 150 ++ ("...\n".data)
  else [])

/-- The instruction variant for comparison-type queries. -/
def comparisonInstruction : Str :=
  ("\n    4. Create a detailed comparison focusing on:\n       - Key differences in features and specifications\n       - Price-to-value analysis\n       - Use cases for each product\n       - Clear winner recommendations for different user needs\n    ").data

/-- The instruction variant for ranking-type responses. -/
def rankingInstruction : Str :=
  ("\n    4. Create a ranking-style response that:\n       - Ranks products by overall value and relevance\n       - Explains why each product earned its position\n       - Highlights the best use case for each product\n       - Provides clear \"best for\" categories\n    ").data

/-- The instruction variant for recommendation-type responses. -/
def recommendationInstruction : Str :=
  ("\n    4. Create personalized recommendations that:\n       - Match the user\x27s specific requirements\n       - Explain why each product is recommended\n       - Highlight key benefits and potential drawbacks\n       - Suggest the best overall choice\n    ").data

/-- The fixed JSON-schema and requirements tail of the prompt template. -/
def promptSchemaBlock : Str :=
  ("\n5. Provide a structured JSON response with this EXACT format:\n\n\x7b\n    \"summary\": \"Brief 2-3 sentence overview of your recommendations addressing the user\x27s specific needs\",\n    \"comparisons\": [\n        \x7b\n            \"name\": \"Exact Product Name\",\n            \"price\": numerical_price_only,\n            \"rating\": numerical_rating_only,\n            \"category\": \"Product Category\",\n            \"brand\": \"Brand Name\",\n            \"key_features\": [\"Feature 1\", \"Feature 2\", \"Feature 3\"],\n            \"recommended_for\": \"Brief description of ideal user/use case\",\n            \"pros\": [\"Pro 1\", \"Pro 2\"],\n            \"cons\": [\"Con 1\", \"Con 2\"]\n        \x7d\n    ],\n    \"top_pick\": \"Name of the best overall product for this user\",\n    \"budget_pick\": \"Name of the best budget option (if applicable)\"\n\x7d\n\nCRITICAL REQUIREMENTS:\n- Use ONLY information from the provided context\n- Include 3-6 products in comparisons array\n- Ensure all price and rating values are numbers (not strings)\n- Be specific and actionable in recommendations\n- Focus on the user\x27s actual needs, not generic features\n\nReturn ONLY the JSON object, no additional text.").data

/-- The prompt builder `_build_enhanced_prompt` of `src/rag_system.py`. -/
def _build_enhanced_prompt (query : Str) (chunks : List Candidate)
    (intent : Intent) : Str :=
  let products_info := promptProducts chunks
  let context_parts :=
    (products_info.enum).map (fun p => contextPart (p.1 + 1) p.2.2)
  let context := List.intercalate ("\n".data) context_parts
  let specific_instruction :=
    if intent.comparison_requested then comparisonInstruction
    else if 3 < products_info.length then rankingInstruction
    else recommendationInstruction
  ("You are an expert e-commerce product advisor. Analyze the products and provide helpful recommendations based on the user\x27s query.\n\nCONTEXT (Available Products):\n").data ++
  context ++
  ("\n\nUSER QUERY: ".data) ++ query ++
  ("\n\nINSTRUCTIONS:\n1. Analyze the user\x27s needs from their query\n2. Evaluate each product\x27s relevance to those needs\n3. Consider price, features, ratings, and user feedback\n").data ++
  specific_instruction ++
  promptSchemaBlock

/-! ## Fallback synthesis (`_generate_fallback_response`) -/

/-- The per-product record built by `_generate_fallback_response` (the
boilerplate `key_features` / `recommended_for` / `pros` / `cons` text is
attached when rendering to JSON). -/
structure FallbackProduct where
  name : Str
  price : ℚ
  rating : ℚ
  category : Str
  brand : Str
deriving DecidableEq

/-- One step of the fallback aggregation: admit the product of the chunk when its
id is truthy and unseen. -/
def fallbackStep (products : List (Str × FallbackProduct)) (chunk : Candidate) :
    List (Str × FallbackProduct) :=
  let metadata := chunk.metadata
  match metadata.product_id with
  | none => products
  | some product_id =>
    if product_id ≠ [] ∧ products.all (fun kv => kv.1 ≠ product_id) then
      products ++ [(product_id,
        { name := metadata.name.getD ("Unknown Product".data)
        , price := metadata.price.getD 0
        , rating := metadata.rating.getD 0
        , category := metadata.category.getD ("Unknown".data)
        , brand := metadata.brand.getD ("Unknown".data) })]
    else products

/-- The `products` aggregation of `_generate_fallback_response`: one record
per truthy product id among the first 6 chunks, insertion-ordered. -/
def fallbackProducts (context_chunks : List Candidate) : List (Str × FallbackProduct) :=
  (context_chunks.take 6).foldl fallbackStep []

/-- JSON rendering of one fallback comparison entry, boilerplate included. -/
def fallbackProductJson (p : FallbackProduct) : Json :=
  Json.obj
    [ (("name".data), .str p.name)
    , (("price".data), .num p.price)
    , (("rating".data), .num p.rating)
    , (("category".data), .str p.category)
    , (("brand".data), .str p.brand)
    , (("key_features".data), .arr [.str ("High quality".data), .str ("Popular choice".data), .str ("Good reviews".data)])
    , (("recommended_for".data), .str ("General use".data))
    , (("pros".data), .arr [.str ("Well-rated".data), .str ("Reliable brand".data)])
    , (("cons".data), .arr [.str ("Limited information available".data)]) ]

/-- Python `min(products.values(), key=lambda x: x.get("price", inf))`:
a left fold that replaces the running best only on a strictly smaller
price, so the first minimal element wins (every record carries a price, so
the `inf` default is never consulted). -/
def minByPrice : List FallbackProduct → Option FallbackProduct
  | [] => none
  | p :: rest => some (rest.foldl (fun best x => if x.price < best.price then x else best) p)

/-- The deterministic fallback `_generate_fallback_response` of
`src/rag_system.py`. -/
def _generate_fallback_response (context_chunks : List Candidate) : Json :=
  let products := (fallbackProducts context_chunks).map (fun kv => kv.2)
  Json.obj
    [ (("summary".data), .str ("Here are some relevant product recommendations based on your search.".data))
    , (("comparisons".data), .arr (products.map fallbackProductJson))
    , (("top_pick".data), .str (match products with
        | p :: _ => p.name
        | [] => ("No products found".data)))
    , (("budget_pick".data), .str (match minByPrice products with
        | some p => p.name
        | none => ("No budget option found".data))) ]

/-! ## Generative composer (`generate_enhanced_response`) -/

/-- Observable outcome of the chat-completions call: `failure` covers a
timeout, a transport error, or any exception while extracting the message
content from the response body; `response` carries the HTTP status and the
stripped message content. -/
inductive LLMOutcome where
  | failure
  | response (status : Nat) (content : Str)

/-- Index of the first occurrence of a character (Python `str.find`, with
`none` for `-1`). -/
def findCharIdx (c : Char) : Str → Option Nat
  | [] => none
  | x :: t => if x == c then some 0 else (findCharIdx c t).map (fun i => i + 1)

/-- Index of the last closing brace in the content (the Python `rfind`,
with `none` standing for `-1`). -/
def rfindRBrace (content : Str) : Option Nat :=
  match findCharIdx rbrace content.reverse with
  | some i => some (content.length - 1 - i)
  | none => none

/-- The composer `generate_enhanced_response` of `src/rag_system.py`.
`llm` is the generative service (applied to the built prompt), `jsonLoads`
stands for `json.loads` on the brace-delimited slice (`none` for a decode
error). A decoded non-object makes the subsequent attribute access raise,
which the outer `except` turns into the fallback as well. -/
def generate_enhanced_response (jsonLoads : Str → Option Json)
    (llm : Str → LLMOutcome) (query : Str) (context_chunks : List Candidate)
    (intent : Intent) : Json :=
  let prompt := _build_enhanced_prompt query context_chunks intent
  match llm prompt with
  | .failure => _generate_fallback_response context_chunks
  | .response status content =>
    if status ≠ 200 then _generate_fallback_response context_chunks
    else
      match findCharIdx lbrace content, rfindRBrace content with
      | some json_start, some rb =>
        let json_end := rb + 1
        let json_content := (content.drop json_start).take (json_end - json_start)
        match jsonLoads json_content with
        | none => _generate_fallback_response context_chunks
        | some (.obj fields) =>
          let fields :=
            if isListField (getField fields ("comparisons".data)) then fields
            else setField fields ("comparisons".data) (.arr [])
          let fields :=
            if (getField fields ("summary".data)).all Json.falsy then
              setField fields ("summary".data)
                (.str ("Here are the product recommendations based on your query.".data))
            else fields
          Json.obj fields
        | some _ => _generate_fallback_response context_chunks
      | _, _ => _generate_fallback_response context_chunks

/-! ## Preference updates (`update_preferences`) -/

/-- The product dictionary passed to `update_preferences`. -/
structure ProductInput where
  product_id : Option Str := none
  category : Option Str := none
  brand : Option Str := none
  price : Option ℚ := none
  rating : Option ℚ := none
deriving DecidableEq

/-- The like-path category update of `update_preferences`: append a truthy,
absent category. -/
def likeCategoryStep (profile : Profile) (category : Option Str) : Profile :=
  match category with
  | some c =>
    if c ≠ [] ∧ c ∉ profile.preferred_categories then
      { profile with preferred_categories := profile.preferred_categories ++ [c] }
    else profile
  | none => profile

/-- The like-path brand update of `update_preferences`: append a truthy,
absent brand. -/
def likeBrandStep (profile : Profile) (brand : Option Str) : Profile :=
  match brand with
  | some b =>
    if b ≠ [] ∧ b ∉ profile.preferred_brands then
      { profile with preferred_brands := profile.preferred_brands ++ [b] }
    else profile
  | none => profile

/-- The like-path price update of `update_preferences`: raise `max_price`. -/
def likePriceStep (profile : Profile) (price : Option ℚ) : Profile :=
  match price with
  | some p =>
    { profile with max_price := some (match profile.max_price with
        | none => p
        | some mp => max mp p) }
  | none => profile

/-- The like-path rating update of `update_preferences`: lower `min_rating`. -/
def likeRatingStep (profile : Profile) (rating : Option ℚ) : Profile :=
  match rating with
  | some r =>
    { profile with min_rating := some (match profile.min_rating with
        | none => r
        | some mr => min mr r) }
  | none => profile

/-- The dislike-path brand removal of `update_preferences`: drop the first
occurrence of the brand when present. -/
def dislikeBrandStep (profile : Profile) (brand : Option Str) : Profile :=
  match brand with
  | some b =>
    if b ∈ profile.preferred_brands then
      { profile with preferred_brands := profile.preferred_brands.erase b }
    else profile
  | none => profile

/-- The profile mutation of `update_preferences` in `src/rag_system.py`
(file persistence elided; `ts` is the wall-clock reading used for the
interaction timestamp). The interaction history is appended to and trimmed
to its last 50 entries in both the like and the dislike path. -/
def update_preferences (profile : Profile) (product : ProductInput)
    (like : Bool) (ts : Nat) : Profile :=
  let interaction : Interaction :=
    { product_id := product.product_id
    , action := if like then ("like".data) else ("dislike".data)
    , timestamp := ts
    , category := product.category
    , brand := product.brand
    , price := product.price }
  let history := profile.interaction_history ++ [interaction]
  let history := history.drop (history.length - 50)
  let profile := { profile with interaction_history := history }
  if like then
    likeRatingStep
      (likePriceStep
        (likeBrandStep (likeCategoryStep profile product.category) product.brand)
        product.price)
      product.rating
  else
    dislikeBrandStep profile product.brand

/-- A sequence of `update_preferences` calls applied in order. -/
def applyUpdates : List (ProductInput × Bool × Nat) → Profile → Profile
  | [], profile => profile
  | (product, like, ts) :: rest, profile =>
    applyUpdates rest (update_preferences profile product like ts)

/-! ## Metrics logging and the top-level pipeline -/

/-- One entry of the metrics log (`log_enhanced_metrics`). -/
structure MetricsEntry where
  query : Str
  intent : Intent
  products_retrieved : Nat
  top_product_ids : List (Option Str)
  categories_found : List Str
  latency_ms : Nat
  timestamp : Nat
deriving DecidableEq

/-- The metrics append of `log_enhanced_metrics`, with the on-disk list
threaded explicitly and the wall-clock readings as parameters; retention is
capped at the last 100 entries. -/
def log_enhanced_metrics (query : Str) (intent : Intent)
    (retrieved : List Candidate) (latency_ms ts : Nat)
    (data : List MetricsEntry) : List MetricsEntry :=
  let entry : MetricsEntry :=
    { query := query
    , intent := intent
    , products_retrieved := retrieved.length
    , top_product_ids := (retrieved.take 5).map (fun r => r.metadata.product_id)
    , categories_found := categoriesFound (retrieved.take 10)
    , latency_ms := latency_ms
    , timestamp := ts }
  let data := data ++ [entry]
  if 100 < data.length then data.drop (data.length - 100) else data

/-- One display entry of the `products` list built by `get_recommendations`. -/
structure DisplayProduct where
  product_id : Str
  name : Str
  category : Str
  brand : Str
  price : Option ℚ
  rating : Option ℚ
  relevance : ℚ
  avg_sentiment : ℚ
deriving DecidableEq

/-- The `unique_products` loop of `get_recommendations`: one display entry
per truthy product id over the reranked list, stopping once 8 entries are
collected. -/
def uniqueProductsLoop : List Candidate → List (Str × DisplayProduct) → List (Str × DisplayProduct)
  | [], acc => acc
  | match_ :: rest, acc =>
    let metadata := match_.metadata
    match metadata.product_id with
    | none => uniqueProductsLoop rest acc
    | some product_id =>
      if product_id ≠ [] ∧ acc.all (fun kv => kv.1 ≠ product_id) then
        let acc := acc ++ [(product_id,
          { product_id := product_id
          , name := metadata.name.getD ("Unknown".data)
          , category := metadata.category.getD ("Unknown".data)
          , brand := metadata.brand.getD ("Unknown".data)
          , price := metadata.price
          , rating := metadata.rating
          , relevance := match_.score.getD 0
          , avg_sentiment := metadata.avg_sentiment.getD 0 })]
        if 8 ≤ acc.length then acc else uniqueProductsLoop rest acc
      else uniqueProductsLoop rest acc

/-- Everything `get_recommendations` computes for one request (the response
text, the display products and the structured recommendation) together with
the intermediate pipeline values the specification talks about. -/
structure PipelineOut where
  intent : Intent
  candidates : List Candidate
  reranked : List Candidate
  structured : Json
  response : Json
  products : List (Str × DisplayProduct)

/-- The structured value of the early "no results" return of
`get_recommendations`. -/
def noResultsStructured : Json :=
  Json.obj
    [ (("summary".data), .str ("No products found".data))
    , (("comparisons".data), .arr []) ]

/-- The top-level pipeline `get_recommendations` of `src/rag_system.py`,
with the stubbed external services (`probe`, `llm`, `jsonLoads`) and the
wall-clock readings (`latency_ms`, `ts`) as parameters, the user profile
passed directly (it is loaded per request from the preference store), and
the metrics log threaded as state. Returns the per-request output paired
with the new metrics log. -/
def get_recommendations (probe : Str → Nat → List Candidate)
    (llm : Str → LLMOutcome) (jsonLoads : Str → Option Json)
    (query : Str) (profile : Profile) (latency_ms ts : Nat)
    (metrics : List MetricsEntry) : PipelineOut × List MetricsEntry :=
  let intent := _detect_query_intent query
  let matches' := retrieve_with_intent probe query profile intent 15
  if matches' = [] then
    ({ intent := intent
     , candidates := []
     , reranked := []
     , structured := noResultsStructured
     , response := .str ("I couldn\x27t find any relevant products for your query. Please try rephrasing or using different keywords.").data
     , products := [] },
     log_enhanced_metrics query intent [] latency_ms ts metrics)
  else
    let reranked := rerank_with_diversity matches' profile intent
    let structured_response := generate_enhanced_response jsonLoads llm query reranked intent
    let unique_products := uniqueProductsLoop reranked []
    ({ intent := intent
     , candidates := matches'
     , reranked := reranked
     , structured := structured_response
     , response := (structured_response.lookup ("summary".data)).getD
         (.str ("Here are my recommendations.".data))
     , products := unique_products },
     log_enhanced_metrics query intent reranked latency_ms ts metrics)

/-! ## Concrete stub services and inputs used by witnesses and counterexamples -/

/-- A candidate with only an id (concrete input for the retrieval claims). -/
def candA : Candidate := { id := some ("a".data) }

/-- A stub vector store returning the same single hit for every probe. -/
def probeA : Str → Nat → List Candidate := fun _ _ => [candA]

/-- A cheap in-budget smartphone hit (stage-1 result of the budget scenario). -/
def cand6A : Candidate :=
  { id := some ("a".data)
  , metadata := { category := some ("Smartphones".data), price := some 100 } }

/-- An expensive related-category hit (stage-4 result of the budget scenario). -/
def cand6B : Candidate :=
  { id := some ("b".data)
  , metadata := { category := some ("Smartwatches".data), price := some 900 } }

/-- A stub vector store for the budget scenario: the primary probe finds the
cheap smartphone, the `Smartwatches` related-category probe finds the
expensive watch. -/
def probe6 : Str → Nat → List Candidate := fun q _ =>
  if q = ("q".data) then [cand6A]
  else if q = (("q".data) ++ (". Related category: ".data) ++ ("Smartwatches".data)) then [cand6B]
  else []

/-- A budget intent with a price range of 500 and no extracted categories. -/
def intent6 : Intent := { budget_mentioned := true, price_range := some 500 }

/-- A scored `Headphones` candidate of a given id and brand. -/
def candH (i b : Str) : Candidate :=
  { id := some i
  , score := some 1
  , metadata := { product_id := some i, category := some ("Headphones".data), brand := some b } }

/-- Four `Headphones` candidates over two brands. -/
def candsH : List Candidate :=
  [candH ("1".data) ("A".data), candH ("2".data) ("A".data), candH ("3".data) ("B".data), candH ("4".data) ("B".data)]

/-- An intent whose extracted categories are exactly `["headphones"]`. -/
def intentH : Intent := { categories := [("headphones".data)] }

/-- A generative-service reply that is a valid JSON object with seven
entries in `comparisons`. -/
def content7 : Str :=
  ("\x7b\"summary\": \"s\", \"comparisons\": [1, 2, 3, 4, 5, 6, 7]\x7d").data

/-- The value `json.loads` produces for `content7`. -/
def parsed7 : Json :=
  Json.obj
    [ (("summary".data), .str ("s".data))
    , (("comparisons".data), .arr [.num 1, .num 2, .num 3, .num 4, .num 5, .num 6, .num 7]) ]

/-- A JSON decoder agreeing with `json.loads` on `content7` (and failing on
any other input, which the counterexample never exercises). -/
def jsonLoads7 : Str → Option Json := fun s => if s = content7 then some parsed7 else none

/-- A generative service answering every prompt with `content7` and status
200. -/
def llm7 : Str → LLMOutcome := fun _ => .response 200 content7

/-- A generative service answering every prompt with brace-free prose. -/
def llmNoBrace : Str → LLMOutcome := fun _ => .response 200 ("no braces here".data)

/-- A JSON decoder that always fails. -/
def jsonLoadsNone : Str → Option Json := fun _ => none

/-- Three fallback chunks: distinct product ids, the cheapest (price 20)
appearing second and a tie for cheapest appearing third. -/
def chunks8 : List Candidate :=
  [ { metadata := { product_id := some ("p1".data), name := some ("N1".data), price := some 50 } }
  , { metadata := { product_id := some ("p2".data), name := some ("N2".data), price := some 20 } }
  , { metadata := { product_id := some ("p3".data), name := some ("N3".data), price := some 20 } } ]

/-- The record aggregated from the first chunk of `chunks8`. -/
def fbN1 : FallbackProduct :=
  { name := ("N1".data), price := 50, rating := 0, category := ("Unknown".data), brand := ("Unknown".data) }

/-- The record aggregated from the second chunk of `chunks8` (cheapest). -/
def fbN2 : FallbackProduct :=
  { name := ("N2".data), price := 20, rating := 0, category := ("Unknown".data), brand := ("Unknown".data) }

/-- The record aggregated from the third chunk of `chunks8` (price tie). -/
def fbN3 : FallbackProduct :=
  { name := ("N3".data), price := 20, rating := 0, category := ("Unknown".data), brand := ("Unknown".data) }

/-- A liked product of brand `SoundCo` in one category. -/
def prodS1 : ProductInput :=
  { product_id := some ("s1".data), category := some ("Headphones".data), brand := some ("SoundCo".data) }

/-- A second liked product of brand `SoundCo` in another category. -/
def prodS2 : ProductInput :=
  { product_id := some ("s2".data), category := some ("Speakers".data), brand := some ("SoundCo".data) }

/-- A profile whose `max_price` is explicitly zero (falsy in Python). -/
def profileZeroMax : Profile := { max_price := some 0 }

/-- Metadata carrying a price, for exercising the price term. -/
def mdPriced : Metadata := { price := some 5 }

/-! ## Lemmas about the price-pattern search -/

/-- A successful pattern match at some position makes the leftmost search
succeed (with the value of some — possibly earlier — match). -/
theorem searchLitNum_isSome_append (lit : Str) :
    ∀ (a rest : Str), (matchLitThenNum lit rest).isSome = true →
      (searchLitNum lit (a ++ rest)).isSome = true := by
  intro a
  induction a with
  | nil =>
    intro rest h
    cases rest with
    | nil => simpa [searchLitNum] using h
    | cons c t =>
      simp only [List.nil_append, searchLitNum]
      cases hm : matchLitThenNum lit (c :: t) with
      | none => rw [hm] at h; simp at h
      | some n => simp
  | cons c a ih =>
    intro rest h
    simp only [List.cons_append, searchLitNum]
    cases hm : matchLitThenNum lit (c :: (a ++ rest)) with
    | none => exact ih rest h
    | some n => simp

/-- The pattern `under \$?(\d+)` matches at an occurrence of `under $500`,
whatever text follows. -/
theorem matchLitThenNum_under500 (b : Str) :
    matchLitThenNum ("under ".data) (("under $500".data) ++ b) =
      some (digitsToNat ('5' :: '0' :: '0' :: b.takeWhile Char.isDigit)) := rfl

/-- Lowercasing fixes the pattern text `under $500`. -/
theorem lowerStr_under500 : lowerStr ("under $500".data) = ("under $500".data) := by decide

/-! ## Lemmas about the retrieval deduplication loop -/

/-- Every kept hit is the first hit of `expanded_results` carrying its id,
and its id was not among the already-seen ids. -/
theorem uniqLoop_mem (cap : Nat) :
    ∀ (xs : List Candidate) (seen : List Str) (len : Nat) (r : Candidate),
      r ∈ uniqLoop cap xs seen len →
        idOf r ∉ seen ∧ xs.find? (fun x => idOf x == idOf r) = some r := by
  intro xs
  induction xs with
  | nil => intro seen len r h; simp [uniqLoop] at h
  | cons x t ih =>
    intro seen len r h
    by_cases hseen : idOf x ∈ seen
    · rw [uniqLoop, if_pos hseen] at h
      obtain ⟨hnot, hfind⟩ := ih seen len r h
      have hne : (idOf x == idOf r) = false := by
        refine beq_false_of_ne fun he => hnot ?_
        rw [← he]; exact hseen
      exact ⟨hnot, by simp [List.find?, hne, hfind]⟩
    · by_cases hcap : cap ≤ len + 1
      · rw [uniqLoop, if_neg hseen, if_pos hcap] at h
        have hr : r = x := by simpa using h
        subst hr
        exact ⟨hseen, by simp [List.find?]⟩
      · rw [uniqLoop, if_neg hseen, if_neg hcap] at h
        rcases List.mem_cons.mp h with h | h
        · subst h
          exact ⟨hseen, by simp [List.find?]⟩
        · obtain ⟨hnot, hfind⟩ := ih _ _ r h
          have hxr : idOf x ≠ idOf r := fun he => hnot (by rw [← he]; exact List.mem_cons_self _ _)
          have hne : (idOf x == idOf r) = false := beq_false_of_ne hxr
          refine ⟨fun hs => hnot (List.mem_cons_of_mem _ hs), ?_⟩
          simp [List.find?, hne, hfind]

/-- No two kept hits share an id. -/
theorem uniqLoop_pairwise (cap : Nat) :
    ∀ (xs : List Candidate) (seen : List Str) (len : Nat),
      (uniqLoop cap xs seen len).Pairwise (fun a b => idOf a ≠ idOf b) := by
  intro xs
  induction xs with
  | nil => intro seen len; simp [uniqLoop]
  | cons x t ih =>
    intro seen len
    by_cases hseen : idOf x ∈ seen
    · rw [uniqLoop, if_pos hseen]; exact ih seen len
    · by_cases hcap : cap ≤ len + 1
      · rw [uniqLoop, if_neg hseen, if_pos hcap]; simp
      · rw [uniqLoop, if_neg hseen, if_neg hcap]
        refine List.Pairwise.cons ?_ (ih _ _)
        intro r hr
        have := (uniqLoop_mem cap t _ _ r hr).1
        exact fun he => this (he ▸ List.mem_cons_self _ _)

/-- The loop keeps at most `cap - len` further hits once `len` are kept. -/
theorem uniqLoop_length (cap : Nat) :
    ∀ (xs : List Candidate) (seen : List Str) (len : Nat), len < cap →
      (uniqLoop cap xs seen len).length ≤ cap - len := by
  intro xs
  induction xs with
  | nil => intro seen len _; simp [uniqLoop]
  | cons x t ih =>
    intro seen len hlt
    by_cases hseen : idOf x ∈ seen
    · rw [uniqLoop, if_pos hseen]; exact ih seen len hlt
    · by_cases hcap : cap ≤ len + 1
      · rw [uniqLoop, if_neg hseen, if_pos hcap]
        have : 1 ≤ cap - len := by omega
        simpa using this
      · rw [uniqLoop, if_neg hseen, if_neg hcap]
        have hlt' : len + 1 < cap := by omega
        have := ih (idOf x :: seen) (len + 1) hlt'
        simp only [List.length_cons]
        omega

/-- C7 (counterexample): the query `under $5000` contains the substring
`under $500`, yet `_detect_query_intent` sets `price_range = 5000`, not
`500` (the digit run of the regex match is greedy). -/
theorem claim_C7_counterexample :
    ("under $5000".data) = [] ++ ("under $500".data) ++ ("0".data) ∧
      (_detect_query_intent ("under $5000".data)).price_range = some 5000 ∧
      (5000 : Nat) ≠ 500 := by
  refine ⟨by decide, by decide, by decide⟩

/-- C7 (amended): for every query containing the substring `under $500`,
`_detect_query_intent` sets `budget_mentioned = true` and sets `price_range`
to the number captured by the first price-pattern match — which need not be
500 (for example `under $5000` yields 5000). -/
theorem claim_C7 (q a b : Str) (h : q = a ++ ("under $500".data) ++ b) :
    (_detect_query_intent q).budget_mentioned = true ∧
      ∃ n, (_detect_query_intent q).price_range = some n := by
  have hlow : lowerStr q = lowerStr a ++ (("under $500".data) ++ lowerStr b) := by
    rw [h]
    simp only [lowerStr, List.map_append, List.append_assoc]
    rw [show List.map Char.toLower ("under $500".data) = ("under $500".data) from lowerStr_under500]
  have hsearch : (searchLitNum ("under ".data) (lowerStr q)).isSome = true := by
    rw [hlow]
    apply searchLitNum_isSome_append
    rw [matchLitThenNum_under500]
    rfl
  obtain ⟨n, hn⟩ := Option.isSome_iff_exists.mp hsearch
  have hfirst : firstPriceMatch (lowerStr q) = some n := by
    unfold firstPriceMatch
    rw [hn]
  constructor
  · show (firstPriceMatch (lowerStr q)).isSome = true
    rw [hfirst]
    rfl
  · exact ⟨n, hfirst⟩

/-- C7 (witness): the amended statement applied to the concrete query
`under $5000`. -/
theorem claim_C7_witness :
    (_detect_query_intent ("under $5000".data)).budget_mentioned = true ∧
      ∃ n, (_detect_query_intent ("under $5000".data)).price_range = some n :=
  claim_C7 ("under $5000".data) [] ("0".data) (by decide)

/-- C3 (counterexample): with `top_k = 0` and a stub store returning one
hit, `retrieve_with_intent` returns a singleton list — longer than
`2 × top_k = 0` — because the dedup loop checks its break condition only
after appending. -/
theorem claim_C3_counterexample :
    retrieve_with_intent probeA ("q".data) defaultProfile {} 0 = [candA] ∧
      ¬ (retrieve_with_intent probeA ("q".data) defaultProfile {} 0).length ≤ 0 * 2 := by
  refine ⟨by decide, by decide⟩

/-- C3 (amended): for every probe, query, profile, intent and `top_k`, the
output of `retrieve_with_intent` contains no two elements with the same id
and keeps, for each id, the first occurrence of `expanded_results` (stage /
probe order); its length is at most `2 × top_k` provided `top_k ≥ 1` (for
`top_k = 0` one element can be returned, as the counterexample shows). -/
theorem claim_C3 (probe : Str → Nat → List Candidate) (query : Str)
    (profile : Profile) (intent : Intent) (top_k : Nat) :
    (retrieve_with_intent probe query profile intent top_k).Pairwise
        (fun a b => idOf a ≠ idOf b) ∧
      (∀ r ∈ retrieve_with_intent probe query profile intent top_k,
        (expandedResults probe query intent top_k).find?
          (fun x => idOf x == idOf r) = some r) ∧
      (1 ≤ top_k →
        (retrieve_with_intent probe query profile intent top_k).length ≤ top_k * 2) := by
  refine ⟨uniqLoop_pairwise _ _ _ _, ?_, ?_⟩
  · intro r hr
    exact (uniqLoop_mem (top_k * 2) (expandedResults probe query intent top_k) [] 0 r hr).2
  · intro htop
    have hcap : 0 < top_k * 2 := by omega
    simpa using uniqLoop_length (top_k * 2) (expandedResults probe query intent top_k) [] 0 hcap

/-- C3 (witness): the amended statement at a concrete stub store and
`top_k = 1`. -/
theorem claim_C3_witness :
    (retrieve_with_intent probeA ("q".data) defaultProfile {} 1).length ≤ 1 * 2 ∧
      (expandedResults probeA ("q".data) {} 1).find?
        (fun x => idOf x == idOf candA) = some candA :=
  ⟨(claim_C3 probeA ("q".data) defaultProfile {} 1).2.2 (by decide),
   (claim_C3 probeA ("q".data) defaultProfile {} 1).2.1 candA (by decide)⟩

/-! ## Lemmas about the diversity pass -/

/-- Admitting one candidate keeps every per-key admitted count within its
cap, provided the own (defaulted) key of the candidate was strictly below the
cap: the appended element only affects the count of the key it carries. -/
theorem bump_key (f : Candidate → Option Str) (cap : Str → Nat)
    (acc : List Candidate) (result : Candidate)
    (hall : ∀ b, (acc.filter (fun r => f r == some b)).length ≤ cap b)
    (hadm : (acc.filter (fun r => f r == some ((f result).getD []))).length <
      cap ((f result).getD [])) :
    ∀ b, (((acc ++ [result]).filter (fun r => f r == some b)).length ≤ cap b) := by
  intro b
  rw [List.filter_append, List.length_append]
  cases hrb : f result == some b with
  | false =>
    have : List.filter (fun r => f r == some b) [result] = [] := by
      simp [List.filter, hrb]
    rw [this]
    simpa using hall b
  | true =>
    have heq : f result = some b := eq_of_beq hrb
    have hgd : (f result).getD [] = b := by rw [heq]; rfl
    rw [hgd] at hadm
    have : List.filter (fun r => f r == some b) [result] = [result] := by
      simp [List.filter, hrb]
    rw [this]
    simp only [List.length_singleton]
    omega

/-- Invariant of the greedy diversity scan: starting from an accumulator
below the global cap whose per-brand counts are at most 2 and per-category
counts at most the 4-or-2 cap, the final list satisfies the same bounds and
never exceeds 15 elements. -/
theorem diversityLoop_bounds (intent : Intent) :
    ∀ (rest : List (ℚ × Candidate)) (acc : List Candidate),
      acc.length < 15 →
      (∀ b, ((acc.filter (fun r => r.metadata.brand == some b)).length ≤ 2)) →
      (∀ c, ((acc.filter (fun r => r.metadata.category == some c)).length ≤
        (if lowerStr c ∈ intent.categories then 4 else 2))) →
      (diversityLoop intent rest acc).length ≤ 15 ∧
        (∀ b, (((diversityLoop intent rest acc).filter
          (fun r => r.metadata.brand == some b)).length ≤ 2)) ∧
        (∀ c, (((diversityLoop intent rest acc).filter
          (fun r => r.metadata.category == some c)).length ≤
            (if lowerStr c ∈ intent.categories then 4 else 2))) := by
  intro rest
  induction rest with
  | nil =>
    intro acc hlen hb hc
    exact ⟨by simpa [diversityLoop] using Nat.le_of_lt hlen,
      by simpa [diversityLoop] using hb, by simpa [diversityLoop] using hc⟩
  | cons p rest ih =>
    obtain ⟨s, result⟩ := p
    intro acc hlen hb hc
    by_cases hadm :
        (acc.filter (fun r =>
          r.metadata.brand == some (result.metadata.brand.getD []))).length < 2 ∧
        (acc.filter (fun r =>
          r.metadata.category == some (result.metadata.category.getD []))).length <
          (if lowerStr (result.metadata.category.getD []) ∈ intent.categories then 4 else 2)
    · have hb' := bump_key (fun r => r.metadata.brand) (fun _ => 2) acc result hb hadm.1
      have hc' := bump_key (fun r => r.metadata.category)
        (fun c => if lowerStr c ∈ intent.categories then 4 else 2) acc result hc hadm.2
      have hlen' : (acc ++ [result]).length = acc.length + 1 := by
        simp
      by_cases hbreak : 15 ≤ (acc ++ [result]).length
      · rw [diversityLoop, if_pos hadm, if_pos hbreak]
        exact ⟨by omega, hb', hc'⟩
      · rw [diversityLoop, if_pos hadm, if_neg hbreak]
        exact ih (acc ++ [result]) (by omega) hb' hc'
    · rw [diversityLoop, if_neg hadm]
      exact ih acc hlen hb hc

/-- C4 (counterexample): with `intent.categories = ["headphones"]`, four
candidates of category `Headphones` (two brands) are all admitted, although
the exact string `Headphones` is not one of `intent.categories`: the source
chooses the 4-cap by comparing the lower-cased category, so a category that
is not literally in `intent.categories` can still appear 4 times. -/
theorem claim_C4_counterexample :
    ((rerank_with_diversity candsH defaultProfile intentH).filter
        (fun r => r.metadata.category == some ("Headphones".data))).length = 4 ∧
      ("Headphones".data) ∉ intentH.categories ∧ ¬ (4 : Nat) ≤ 2 := by
  refine ⟨by with_unfolding_all decide, by decide, by decide⟩

/-- C4 (amended): for every candidate list, profile and intent, the output
of `rerank_with_diversity` has length at most 15, contains at most 2
candidates of any one brand, and contains at most 4 candidates of any
category whose lower-casing is in `intent.categories` and at most 2
candidates of any other category (membership is tested on the lower-cased
category string, not on the exact string). -/
theorem claim_C4 (matches' : List Candidate) (profile : Profile) (intent : Intent) :
    (rerank_with_diversity matches' profile intent).length ≤ 15 ∧
      (∀ b, (((rerank_with_diversity matches' profile intent).filter
        (fun r => r.metadata.brand == some b)).length ≤ 2)) ∧
      (∀ c, (((rerank_with_diversity matches' profile intent).filter
        (fun r => r.metadata.category == some c)).length ≤
          (if lowerStr c ∈ intent.categories then 4 else 2))) := by
  exact diversityLoop_bounds intent
    (sortByScoreDesc (matches'.map (fun m => (finalScore m profile intent, m)))) []
    (by simp) (by simp) (by simp)

/-! ## Lemmas about the fallback minimum fold -/

/-- The running best of the Python `min` fold is a lower bound of the whole
traversed list (initial element included). -/
theorem minFold_le (l : List FallbackProduct) :
    ∀ (p0 : FallbackProduct) (r : FallbackProduct), r ∈ p0 :: l →
      (l.foldl (fun best x => if x.price < best.price then x else best) p0).price ≤ r.price := by
  induction l with
  | nil =>
    intro p0 r hr
    simp only [List.foldl_nil]
    rcases List.mem_singleton.mp hr with h
    rw [h]
  | cons x t ih =>
    intro p0 r hr
    simp only [List.foldl_cons]
    have hq : (if x.price < p0.price then x else p0).price ≤ p0.price ∧
        (if x.price < p0.price then x else p0).price ≤ x.price := by
      by_cases hx : x.price < p0.price
      · rw [if_pos hx]; exact ⟨le_of_lt hx, le_refl _⟩
      · rw [if_neg hx]; exact ⟨le_refl _, le_of_not_lt hx⟩
    rcases List.mem_cons.mp hr with h | hr'
    · subst h
      exact le_trans (ih _ _ (List.mem_cons_self _ _)) hq.1
    · rcases List.mem_cons.mp hr' with h | h
      · subst h
        exact le_trans (ih _ _ (List.mem_cons_self _ _)) hq.2
      · exact ih _ r (List.mem_cons_of_mem _ h)

/-- The fold result is the first element of the traversed list achieving
the minimal price (Python `min` keeps the earliest minimum). -/
theorem minFold_first (l : List FallbackProduct) :
    ∀ (p0 : FallbackProduct),
      (p0 :: l).find? (fun r =>
        r.price == (l.foldl (fun best x => if x.price < best.price then x else best) p0).price) =
        some (l.foldl (fun best x => if x.price < best.price then x else best) p0) := by
  induction l with
  | nil =>
    intro p0
    simp [List.find?]
  | cons x t ih =>
    intro p0
    simp only [List.foldl_cons]
    by_cases hx : x.price < p0.price
    · rw [if_pos hx]
      have hih := ih x
      have hm := minFold_le t x _ (List.mem_cons_self _ _)
      have hne : (p0.price ==
          (t.foldl (fun best x => if x.price < best.price then x else best) x).price) = false := by
        refine beq_false_of_ne fun he => ?_
        have : p0.price ≤ x.price := he ▸ hm
        exact absurd hx (not_lt_of_le this)
      rw [List.find?]
      rw [hne]
      exact hih
    · rw [if_neg hx]
      have hp0 : p0.price ≤ x.price := le_of_not_lt hx
      have hih := ih p0
      have hm := minFold_le t p0 _ (List.mem_cons_self _ _)
      rw [List.find?] at hih ⊢
      cases hbeq : (p0.price ==
          (t.foldl (fun best x => if x.price < best.price then x else best) p0).price) with
      | true =>
        rw [hbeq] at hih
        exact hih
      | false =>
        rw [hbeq] at hih
        have hxne : (x.price ==
            (t.foldl (fun best x => if x.price < best.price then x else best) p0).price) = false := by
          refine beq_false_of_ne fun he => ?_
          have h1 : x.price ≤ p0.price := he ▸ hm
          have h2 : p0.price = x.price := le_antisymm hp0 h1
          have : (p0.price ==
              (t.foldl (fun best x => if x.price < best.price then x else best) p0).price) = true := by
            rw [h2, he]
            exact beq_self_eq_true _
          rw [this] at hbeq
          cases hbeq
        rw [List.find?]
        rw [hxne]
        exact hih

/-- C8 (confirmed): whenever fallback synthesis aggregates at least one
product, `top_pick` is the name of the first aggregated product (encounter
order) and `budget_pick` is the name of the aggregated product of minimum
price, ties broken by encounter order (it is the first product whose price
equals the minimum); with no aggregated products both picks are the fixed
sentinel strings. -/
theorem claim_C8 (chunks : List Candidate) :
    ((fallbackProducts chunks).map (fun kv => kv.2) = [] →
      (_generate_fallback_response chunks).lookup ("top_pick".data) =
          some (.str ("No products found".data)) ∧
        (_generate_fallback_response chunks).lookup ("budget_pick".data) =
          some (.str ("No budget option found".data))) ∧
      (∀ p ps, (fallbackProducts chunks).map (fun kv => kv.2) = p :: ps →
        (_generate_fallback_response chunks).lookup ("top_pick".data) = some (.str p.name) ∧
          ∃ q, minByPrice ((fallbackProducts chunks).map (fun kv => kv.2)) = some q ∧
            (_generate_fallback_response chunks).lookup ("budget_pick".data) = some (.str q.name) ∧
            (∀ r ∈ (fallbackProducts chunks).map (fun kv => kv.2), q.price ≤ r.price) ∧
            ((fallbackProducts chunks).map (fun kv => kv.2)).find?
              (fun r => r.price == q.price) = some q) := by
  have htop : (_generate_fallback_response chunks).lookup ("top_pick".data) =
      some (.str (match (fallbackProducts chunks).map (fun kv => kv.2) with
        | p :: _ => p.name
        | [] => ("No products found".data))) := rfl
  have hbud : (_generate_fallback_response chunks).lookup ("budget_pick".data) =
      some (.str (match minByPrice ((fallbackProducts chunks).map (fun kv => kv.2)) with
        | some p => p.name
        | none => ("No budget option found".data))) := rfl
  constructor
  · intro hnil
    rw [hnil] at htop hbud
    exact ⟨htop, hbud⟩
  · intro p ps hcons
    have htop2 : (_generate_fallback_response chunks).lookup ("top_pick".data) =
        some (.str p.name) := by
      rw [htop, hcons]
    have hminps : minByPrice ((fallbackProducts chunks).map (fun kv => kv.2)) =
        some (ps.foldl (fun best x => if x.price < best.price then x else best) p) := by
      rw [hcons]
      rfl
    have hbud2 : (_generate_fallback_response chunks).lookup ("budget_pick".data) =
        some (.str (ps.foldl (fun best x => if x.price < best.price then x else best) p).name) := by
      rw [hbud, hminps]
    refine ⟨htop2,
      ps.foldl (fun best x => if x.price < best.price then x else best) p,
      hminps, hbud2, ?_, ?_⟩
    · rw [hcons]
      exact fun r hr => minFold_le ps p r hr
    · rw [hcons]
      exact minFold_first ps p

/-- C8 (witness): on three concrete chunks with prices 50, 20, 20, the top
pick is the first product and the budget pick is the second — the earliest
product achieving the minimal price. -/
theorem claim_C8_witness :
    (_generate_fallback_response chunks8).lookup ("top_pick".data) = some (.str ("N1".data)) ∧
      (_generate_fallback_response chunks8).lookup ("budget_pick".data) = some (.str ("N2".data)) := by
  obtain ⟨htop, q, hmin, hbud, hle, hfirst⟩ :=
    (claim_C8 chunks8).2 fbN1 [fbN2, fbN3] (by with_unfolding_all decide)
  have hmin2 : minByPrice ((fallbackProducts chunks8).map (fun kv => kv.2)) = some fbN2 := by
    with_unfolding_all decide
  have hq : q = fbN2 := by
    have := hmin.symm.trans hmin2
    exact Option.some.inj this
  subst hq
  exact ⟨htop, hbud⟩

/-! ## Lemmas about preference updates -/

/-- One `update_preferences` call changes `preferred_brands` in one of three
ways only: it leaves the list unchanged, appends an absent brand, or erases
a brand. -/
theorem likeCategoryStep_brands (profile : Profile) (category : Option Str) :
    (likeCategoryStep profile category).preferred_brands = profile.preferred_brands := by
  unfold likeCategoryStep
  cases category with
  | none => rfl
  | some c =>
    dsimp only
    split <;> rfl

theorem likePriceStep_brands (profile : Profile) (price : Option ℚ) :
    (likePriceStep profile price).preferred_brands = profile.preferred_brands := by
  unfold likePriceStep
  cases price <;> rfl

theorem likeRatingStep_brands (profile : Profile) (rating : Option ℚ) :
    (likeRatingStep profile rating).preferred_brands = profile.preferred_brands := by
  unfold likeRatingStep
  cases rating <;> rfl

theorem update_preferences_brands_cases (profile : Profile) (product : ProductInput)
    (like : Bool) (ts : Nat) :
    (update_preferences profile product like ts).preferred_brands = profile.preferred_brands ∨
      (∃ b, b ∉ profile.preferred_brands ∧
        (update_preferences profile product like ts).preferred_brands =
          profile.preferred_brands ++ [b]) ∨
      (∃ b, (update_preferences profile product like ts).preferred_brands =
        profile.preferred_brands.erase b) := by
  unfold update_preferences
  cases like
  · dsimp only
    rw [if_neg Bool.false_ne_true, if_neg Bool.false_ne_true]
    unfold dislikeBrandStep
    cases product.brand with
    | none => exact Or.inl rfl
    | some b =>
      dsimp only
      split
      · exact Or.inr (Or.inr ⟨b, rfl⟩)
      · exact Or.inl rfl
  · dsimp only
    rw [if_pos rfl, if_pos rfl]
    rw [likeRatingStep_brands, likePriceStep_brands]
    unfold likeBrandStep
    cases product.brand with
    | none => exact Or.inl (likeCategoryStep_brands _ _)
    | some b =>
      dsimp only
      split
      · rename_i hcond
        refine Or.inr (Or.inl ⟨b, ?_, ?_⟩)
        · rw [likeCategoryStep_brands] at hcond
          exact hcond.2
        · dsimp only
          rw [likeCategoryStep_brands]
      · exact Or.inl (likeCategoryStep_brands _ _)

/-- One `update_preferences` call preserves duplicate-freeness of
`preferred_brands`. -/
theorem update_preferences_brands_nodup (profile : Profile) (product : ProductInput)
    (like : Bool) (ts : Nat) (h : profile.preferred_brands.Nodup) :
    (update_preferences profile product like ts).preferred_brands.Nodup := by
  rcases update_preferences_brands_cases profile product like ts with he | ⟨b, hb, he⟩ | ⟨b, he⟩
  · rw [he]; exact h
  · rw [he]
    simp [List.nodup_append, h, hb]
  · rw [he]; exact h.erase b

/-- C9 (confirmed): after any sequence of `update_preferences` calls
starting from the default profile, `preferred_brands` contains no duplicate
entries; in particular, liking two products that share the brand `SoundCo`
(in different categories) leaves exactly one instance of that brand. -/
theorem claim_C9 :
    (∀ events : List (ProductInput × Bool × Nat),
      (applyUpdates events defaultProfile).preferred_brands.Nodup) ∧
      (applyUpdates [(prodS1, true, 0), (prodS2, true, 1)] defaultProfile).preferred_brands.count
        ("SoundCo".data) = 1 := by
  constructor
  · have hgen : ∀ (events : List (ProductInput × Bool × Nat)) (profile : Profile),
        profile.preferred_brands.Nodup →
        (applyUpdates events profile).preferred_brands.Nodup := by
      intro events
      induction events with
      | nil => intro profile h; exact h
      | cons e rest ih =>
        intro profile h
        obtain ⟨product, like, ts⟩ := e
        exact ih _ (update_preferences_brands_nodup profile product like ts h)
    exact fun events => hgen events defaultProfile List.nodup_nil
  · with_unfolding_all decide

/-- C10 (confirmed): when `profile.max_price` is `None` or `0` (both falsy
in Python), the price block of `_enhanced_preference_score` is skipped
entirely — the score equals the score with the price term removed, so the
price overage division is never evaluated and contributes exactly 0. -/
theorem claim_C10 (metadata : Metadata) (profile : Profile)
    (h : profile.max_price = none ∨ profile.max_price = some 0) :
    _enhanced_preference_score metadata profile =
      preferenceScoreNoPriceTerm metadata profile := by
  unfold _enhanced_preference_score preferenceScoreNoPriceTerm
  rcases h with h | h
  · rw [h]
  · rw [h]
    cases metadata.price with
    | none => rfl
    | some p => simp

/-- C10 (witness): the theorem applied to a profile whose `max_price` is
explicitly 0 and metadata carrying a price. -/
theorem claim_C10_witness :
    _enhanced_preference_score mdPriced profileZeroMax =
      preferenceScoreNoPriceTerm mdPriced profileZeroMax :=
  claim_C10 mdPriced profileZeroMax (Or.inr rfl)

/-! ## Lemmas about JSON field access and brace scanning -/

/-- Reading back the key just written (Python `d[k] = v; d.get(k)`). -/
theorem getField_setField_same (k : Str) (v : Json) : ∀ (fields : List (Str × Json)),
    getField (setField fields k v) k = some v := by
  intro fields
  induction fields with
  | nil => simp [setField, getField]
  | cons kv t ih =>
    obtain ⟨k0, v0⟩ := kv
    by_cases h : k0 = k
    · simp [setField, getField, h]
    · simp only [setField, if_neg h]
      simp only [getField, if_neg h]
      exact ih

/-- Writing one key leaves the others unchanged. -/
theorem getField_setField_other (k k' : Str) (v : Json) (hne : k' ≠ k) :
    ∀ (fields : List (Str × Json)),
      getField (setField fields k' v) k = getField fields k := by
  intro fields
  induction fields with
  | nil =>
    simp only [setField, getField]
    rw [if_neg hne]
  | cons kv t ih =>
    obtain ⟨k0, v0⟩ := kv
    simp only [setField]
    by_cases h : k0 = k'
    · rw [if_pos h]
      have hk0 : ¬ k0 = k := by rw [h]; exact hne
      simp only [getField]
      rw [if_neg hne, if_neg hk0]
    · rw [if_neg h]
      simp only [getField]
      by_cases hk : k0 = k
      · rw [if_pos hk, if_pos hk]
      · rw [if_neg hk, if_neg hk]
        exact ih

/-- A character that does not occur in the text is not found. -/
theorem findCharIdx_eq_none (c : Char) : ∀ (l : Str), c ∉ l → findCharIdx c l = none := by
  intro l
  induction l with
  | nil => intro _; rfl
  | cons x t ih =>
    intro h
    have hx : (x == c) = false :=
      beq_false_of_ne fun he => h (List.mem_cons.mpr (Or.inl he.symm))
    rw [findCharIdx, hx]
    rw [if_neg Bool.false_ne_true]
    rw [ih fun hc => h (List.mem_cons_of_mem _ hc)]
    rfl

/-- Python `rfind` yields -1 when `}` does not occur in the text. -/
theorem rfindRBrace_eq_none (content : Str) (h : rbrace ∉ content) :
    rfindRBrace content = none := by
  unfold rfindRBrace
  rw [findCharIdx_eq_none rbrace content.reverse (by simpa using h)]

/-- The `comparisons` array of the deterministic fallback. -/
theorem fallback_comparisons (context_chunks : List Candidate) :
    (_generate_fallback_response context_chunks).lookup ("comparisons".data) =
      some (Json.arr (((fallbackProducts context_chunks).map (fun kv => kv.2)).map
        fallbackProductJson)) := rfl

/-- C1 (confirmed): for every decoder, generative-service behaviour, query,
ranked chunk list and intent, the composer returns a JSON object whose
`comparisons` field is a list (a structurally valid Recommendation value —
it never raises); and whenever the service replies with text containing no
`{` or no `}`, the result is exactly the deterministic fallback synthesis
(the partial-JSON path is not taken). -/
theorem claim_C1 (jsonLoads : Str → Option Json) (llm : Str → LLMOutcome)
    (query : Str) (context_chunks : List Candidate) (intent : Intent) :
    (∃ fields, generate_enhanced_response jsonLoads llm query context_chunks intent =
      Json.obj fields) ∧
      (∃ l, (generate_enhanced_response jsonLoads llm query context_chunks intent).lookup
        ("comparisons".data) = some (Json.arr l)) ∧
      (∀ status content,
        llm (_build_enhanced_prompt query context_chunks intent) = .response status content →
        (lbrace ∉ content ∨ rbrace ∉ content) →
        generate_enhanced_response jsonLoads llm query context_chunks intent =
          _generate_fallback_response context_chunks) := by
  have hfb_obj : ∃ fields, _generate_fallback_response context_chunks = Json.obj fields :=
    ⟨_, rfl⟩
  have hfb_arr : ∃ l, (_generate_fallback_response context_chunks).lookup
      ("comparisons".data) = some (Json.arr l) :=
    ⟨_, fallback_comparisons context_chunks⟩
  simp only [generate_enhanced_response]
  cases hllm : llm (_build_enhanced_prompt query context_chunks intent) with
  | failure =>
    exact ⟨hfb_obj, hfb_arr, fun status content hresp _ => LLMOutcome.noConfusion hresp⟩
  | response status content =>
    dsimp only
    by_cases hs : status ≠ 200
    · rw [if_pos hs]
      exact ⟨hfb_obj, hfb_arr, fun _ _ _ _ => rfl⟩
    · rw [if_neg hs]
      have hbrace : ∀ status' content',
          LLMOutcome.response status content = .response status' content' →
          (lbrace ∉ content' ∨ rbrace ∉ content') →
          (findCharIdx lbrace content = none ∨ rfindRBrace content = none) := by
        intro status' content' hresp hbr
        cases hresp
        rcases hbr with hbr | hbr
        · exact Or.inl (findCharIdx_eq_none _ _ hbr)
        · exact Or.inr (rfindRBrace_eq_none _ hbr)
      cases hfind : findCharIdx lbrace content with
      | none =>
        dsimp only
        exact ⟨hfb_obj, hfb_arr, fun _ _ _ _ => rfl⟩
      | some json_start =>
        cases hrfind : rfindRBrace content with
        | none =>
          dsimp only
          exact ⟨hfb_obj, hfb_arr, fun _ _ _ _ => rfl⟩
        | some rb =>
          dsimp only
          have hthird : ∀ status' content',
              LLMOutcome.response status content = .response status' content' →
              (lbrace ∉ content' ∨ rbrace ∉ content') → False := by
            intro status' content' hresp hbr
            rcases hbrace status' content' hresp hbr with h | h
            · rw [hfind] at h; cases h
            · rw [hrfind] at h; cases h
          cases hjl : jsonLoads ((content.drop json_start).take (rb + 1 - json_start)) with
          | none =>
            dsimp only
            exact ⟨hfb_obj, hfb_arr, fun s c hresp hbr => absurd (hthird s c hresp hbr) not_false⟩
          | some j =>
            cases j with
            | obj fields =>
              dsimp only
              refine ⟨⟨_, rfl⟩, ?_,
                fun s c hresp hbr => absurd (hthird s c hresp hbr) not_false⟩
              by_cases hlist : isListField (getField fields ("comparisons".data)) = true
              · obtain ⟨l0, hl0⟩ : ∃ l0, getField fields ("comparisons".data) =
                    some (Json.arr l0) := by
                  unfold isListField at hlist
                  split at hlist
                  · rename_i heq
                    exact ⟨_, heq⟩
                  · cases hlist
                rw [if_pos hlist]
                by_cases hsum : (getField fields ("summary".data)).all Json.falsy = true
                · rw [if_pos hsum]
                  refine ⟨l0, ?_⟩
                  show getField (setField fields ("summary".data) _) ("comparisons".data) = _
                  rw [getField_setField_other _ _ _ (by decide), hl0]
                · rw [if_neg hsum]
                  exact ⟨l0, hl0⟩
              · rw [if_neg hlist]
                by_cases hsum : (getField (setField fields ("comparisons".data) (Json.arr []))
                    ("summary".data)).all Json.falsy = true
                · rw [if_pos hsum]
                  refine ⟨[], ?_⟩
                  show getField (setField (setField fields ("comparisons".data) (Json.arr []))
                    ("summary".data) _) ("comparisons".data) = _
                  rw [getField_setField_other _ _ _ (by decide),
                    getField_setField_same]
                · rw [if_neg hsum]
                  exact ⟨[], getField_setField_same _ _ _⟩
            | null =>
              dsimp only
              exact ⟨hfb_obj, hfb_arr, fun s c hresp hbr => absurd (hthird s c hresp hbr) not_false⟩
            | bool b =>
              dsimp only
              exact ⟨hfb_obj, hfb_arr, fun s c hresp hbr => absurd (hthird s c hresp hbr) not_false⟩
            | num q =>
              dsimp only
              exact ⟨hfb_obj, hfb_arr, fun s c hresp hbr => absurd (hthird s c hresp hbr) not_false⟩
            | str s0 =>
              dsimp only
              exact ⟨hfb_obj, hfb_arr, fun s c hresp hbr => absurd (hthird s c hresp hbr) not_false⟩
            | arr l0 =>
              dsimp only
              exact ⟨hfb_obj, hfb_arr, fun s c hresp hbr => absurd (hthird s c hresp hbr) not_false⟩

/-- C1 (witness): a service replying 200 with brace-free prose makes the
composer return the fallback synthesis. -/
theorem claim_C1_witness :
    generate_enhanced_response jsonLoadsNone llmNoBrace ("q".data) [] {} =
      _generate_fallback_response [] :=
  (claim_C1 jsonLoadsNone llmNoBrace ("q".data) [] {}).2.2 200 ("no braces here".data) rfl
    (Or.inl (by decide))

/-- One aggregation step admits at most one new fallback product. -/
theorem fallbackStep_length (products : List (Str × FallbackProduct)) (chunk : Candidate) :
    (fallbackStep products chunk).length ≤ products.length + 1 := by
  unfold fallbackStep
  dsimp only
  cases chunk.metadata.product_id with
  | none => exact Nat.le_succ _
  | some pid =>
    dsimp only
    split
    · simp
    · exact Nat.le_succ _

/-- The fallback aggregation admits at most one product per chunk. -/
theorem foldl_fallbackStep_length :
    ∀ (l : List Candidate) (acc : List (Str × FallbackProduct)),
      (l.foldl fallbackStep acc).length ≤ acc.length + l.length := by
  intro l
  induction l with
  | nil => intro acc; simp
  | cons x t ih =>
    intro acc
    have h1 := ih (fallbackStep acc x)
    have h2 := fallbackStep_length acc x
    simp only [List.foldl_cons, List.length_cons]
    omega

/-- C2 (counterexample): a generative service that returns the valid JSON
object `content7` — seven entries in `comparisons` — makes the composer
return a Recommendation whose `comparisons` has length 7: the parsed path
checks only that `comparisons` is a list and never truncates it to 6. -/
theorem claim_C2_counterexample :
    comparisonsLength (generate_enhanced_response jsonLoads7 llm7 ("q".data) [] {}) = some 7 ∧
      ¬ (7 : Nat) ≤ 6 := by
  refine ⟨by with_unfolding_all decide, by decide⟩

/-- C2 (amended): the `comparisons` list of a fallback-synthesis
Recommendation has length at most 6 (at most one product per considered
chunk, six chunks considered); on the parsed generative path `comparisons`
is only guaranteed to be a list, with no enforced length bound. -/
theorem claim_C2 (context_chunks : List Candidate) :
    ∃ l, (_generate_fallback_response context_chunks).lookup ("comparisons".data) =
      some (Json.arr l) ∧ l.length ≤ 6 := by
  refine ⟨_, fallback_comparisons context_chunks, ?_⟩
  simp only [List.length_map]
  have h1 := foldl_fallbackStep_length (context_chunks.take 6) []
  simp only [List.length_nil, Nat.zero_add] at h1
  have h2 : (context_chunks.take 6).length ≤ 6 := by
    simp [List.length_take]
  unfold fallbackProducts
  omega

/-- When the budget is mentioned with a truthy price range and the filter
keeps something, the accumulator is replaced by exactly the filtered list. -/
theorem applyPriceFilter_eq (intent : Intent) (l : List Candidate) (p : Nat)
    (hb : intent.budget_mentioned = true) (hp : intent.price_range = some p)
    (hnz : p ≠ 0) (hne : l.filter (priceOkFilter p) ≠ []) :
    applyPriceFilter intent l = l.filter (priceOkFilter p) := by
  unfold applyPriceFilter
  rw [hb, hp]
  dsimp only
  rw [if_pos hnz, if_pos hne]

/-- C6 (confirmed): when the intent mentions a truthy budget and the price
filter keeps at least one stage-1/2 hit, every element of the final
retrieval output either satisfies the price filter (numeric price at most
the range) or comes from the stage-4 related-category probes, which are
appended after the filter step and never filtered; concretely, with the
stub store `probe6` and a 500 price range the output contains the stage-4
hit `cand6B` priced 900. -/
theorem claim_C6 :
    (∀ (probe : Str → Nat → List Candidate) (query : Str) (profile : Profile)
        (intent : Intent) (top_k : Nat) (p : Nat),
      intent.budget_mentioned = true → intent.price_range = some p → p ≠ 0 →
      (stage12Results probe query intent top_k).filter (priceOkFilter p) ≠ [] →
      ∀ r ∈ retrieve_with_intent probe query profile intent top_k,
        priceOkFilter p r = true ∨
          r ∈ relatedResults probe query top_k
            (applyPriceFilter intent (stage12Results probe query intent top_k))) ∧
      (retrieve_with_intent probe6 ("q".data) defaultProfile intent6 15 = [cand6A, cand6B] ∧
        cand6B.metadata.price = some 900 ∧ intent6.price_range = some 500 ∧
        priceOkFilter 500 cand6B = false) := by
  constructor
  · intro probe query profile intent top_k p hb hp hnz hne r hr
    have hmem : r ∈ expandedResults probe query intent top_k :=
      List.mem_of_find?_eq_some
        ((uniqLoop_mem (top_k * 2) (expandedResults probe query intent top_k) [] 0 r hr).2)
    simp only [expandedResults] at hmem
    rcases List.mem_append.mp hmem with hmem | hmem
    · rw [applyPriceFilter_eq intent _ p hb hp hnz hne] at hmem
      exact Or.inl (List.of_mem_filter hmem)
    · exact Or.inr hmem
  · refine ⟨by with_unfolding_all decide, by decide, by decide, by with_unfolding_all decide⟩

/-- C6 (witness): the general statement applied to the concrete budget
scenario and its stage-4 element. -/
theorem claim_C6_witness :
    priceOkFilter 500 cand6B = true ∨
      cand6B ∈ relatedResults probe6 ("q".data) 15
        (applyPriceFilter intent6 (stage12Results probe6 ("q".data) intent6 15)) :=
  claim_C6.1 probe6 ("q".data) defaultProfile intent6 15 500 rfl rfl (by decide)
    (by with_unfolding_all decide) cand6B (by with_unfolding_all decide)

/-- C5 (confirmed): with fixed stubbed external services the per-request
output of `get_recommendations` does not depend on the threaded metrics
state or the wall-clock readings, so running the pipeline twice on
identical `(query, profile)` input — the second run starting from the
metrics state left by the first — yields identical Intent, identical
candidate order, identical reranked order and identical Recommendation
(and identical response and display products). -/
theorem claim_C5 (probe : Str → Nat → List Candidate) (llm : Str → LLMOutcome)
    (jsonLoads : Str → Option Json) (query : Str) (profile : Profile)
    (lat1 ts1 lat2 ts2 : Nat) (metrics : List MetricsEntry) :
    (get_recommendations probe llm jsonLoads query profile lat2 ts2
        (get_recommendations probe llm jsonLoads query profile lat1 ts1 metrics).2).1 =
      (get_recommendations probe llm jsonLoads query profile lat1 ts1 metrics).1 ∧
      (get_recommendations probe llm jsonLoads query profile lat2 ts2
        (get_recommendations probe llm jsonLoads query profile lat1 ts1 metrics).2).1.intent =
        (get_recommendations probe llm jsonLoads query profile lat1 ts1 metrics).1.intent ∧
      (get_recommendations probe llm jsonLoads query profile lat2 ts2
        (get_recommendations probe llm jsonLoads query profile lat1 ts1 metrics).2).1.candidates =
        (get_recommendations probe llm jsonLoads query profile lat1 ts1 metrics).1.candidates ∧
      (get_recommendations probe llm jsonLoads query profile lat2 ts2
        (get_recommendations probe llm jsonLoads query profile lat1 ts1 metrics).2).1.reranked =
        (get_recommendations probe llm jsonLoads query profile lat1 ts1 metrics).1.reranked ∧
      (get_recommendations probe llm jsonLoads query profile lat2 ts2
        (get_recommendations probe llm jsonLoads query profile lat1 ts1 metrics).2).1.structured =
        (get_recommendations probe llm jsonLoads query profile lat1 ts1 metrics).1.structured := by
  have key : ∀ (lat ts : Nat) (m : List MetricsEntry),
      (get_recommendations probe llm jsonLoads query profile lat ts m).1 =
        (get_recommendations probe llm jsonLoads query profile lat1 ts1 metrics).1 := by
    intro lat ts m
    simp only [get_recommendations]
    by_cases hm : retrieve_with_intent probe query profile (_detect_query_intent query) 15 = []
    · rw [if_pos hm, if_pos hm]
    · rw [if_neg hm, if_neg hm]
  have hk := key lat2 ts2
    (get_recommendations probe llm jsonLoads query profile lat1 ts1 metrics).2
  exact ⟨hk, by rw [hk], by rw [hk], by rw [hk], by rw [hk]⟩

end EcommerceRAG
